import Mathlib

/-!
Verification of the diff-to-prompt budgeting pipeline of `commity`
(src/commity/utils/prompt_organizer.py and its caller src/commity/cli.py),
as a shallow embedding: Python strings become `String`/`List Char`,
Python ints become `Nat`, and every function is total.

Python's `int(x * 0.7)` / `int(x * 0.1)` on non-negative ints are modelled
as `7 * x / 10` / `x / 10` (Nat division).  The two agree except on the
rare borderline where IEEE-754 rounding of the inexact constants 0.7/0.1
lands the product just below an integer; no claim here hinges on that
borderline.  The ratios returned by `_get_chars_per_token_ratio` are all
multiples of 0.5 and exactly representable, so `int(excess * ratio)` is
modelled exactly as `excess * ratioHalf / 2` with `ratioHalf` twice the
Python float.
-/

set_option maxRecDepth 8000

namespace Commity

/-- `MAX_DIFF_LENGTH` of prompt_organizer.py. -/
def MAX_DIFF_LENGTH : Nat := 15000

/-- `MAX_FILES_IN_SUMMARY` of prompt_organizer.py. -/
def MAX_FILES_IN_SUMMARY : Nat := 30

/-- `MAX_COMPRESSED_LINES` of prompt_organizer.py. -/
def MAX_COMPRESSED_LINES : Nat := 1000

/-- First step of Python `str.splitlines` restricted to the line breaks that
occur in git diffs (`\n`, `\r\n`, `\r`): collapse each `\r\n` pair into one
`\n`, so the splitter below sees single-character breaks only.  A trailing
line break yields no trailing empty line, matching Python. -/
def normEOL : List Char → List Char
| [] => []
| [c] => [c]
| c1 :: c2 :: rest =>
  if c1 = '\r' && c2 = '\n' then '\n' :: normEOL rest
  else c1 :: normEOL (c2 :: rest)

/-- Line splitting after `\r\n` normalization: a line ends at `\n` or a lone
`\r`. -/
def splitlinesAux : List Char → List Char → List (List Char)
| [], acc => if acc.isEmpty then [] else [acc.reverse]
| c :: rest, acc =>
  if c = '\n' || c = '\r' then acc.reverse :: splitlinesAux rest []
  else splitlinesAux rest (c :: acc)

/-- Python `str.splitlines` on the character list of a string. -/
def pySplitlines (l : List Char) : List (List Char) := splitlinesAux (normEOL l) []

/-- The whitespace characters Python `str.strip()` removes, restricted to
ASCII (diff lines carry no exotic unicode whitespace). -/
def isPyWs (c : Char) : Bool :=
  c = ' ' || c = '\t' || c = '\n' || c = '\r' || c = '\x0b' || c = '\x0c'

/-- Python `str.strip()`. -/
def pyStrip (l : List Char) : List Char :=
  ((l.dropWhile isPyWs).reverse.dropWhile isPyWs).reverse

/-- Python `"\n".join`. -/
def joinNL (ls : List (List Char)) : List Char := List.intercalate ['\n'] ls

/-- `check_diff_length(diff_text, threshold)`: the warning pair of
prompt_organizer.py lines 12-18. -/
def check_diff_length (diff_text : String) (threshold : Nat) : Bool × String :=
  if threshold < diff_text.length then
    (true, "⚠️ Diff too long (" ++ Nat.repr diff_text.length ++
      " characters), it is recommended to submit in batches or simplify changes。")
  else (false, "")

/-- The literal `"diff --git a/"` that `generate_prompt_summary`'s regular
expression `diff --git a/(.+?) ` matches before its capture group. -/
def diffGitLit : List Char := "diff --git a/".data

/-- One attempted match of the capture `(.+?) ` of the regular expression
`diff --git a/(.+?) ` at the current position: the shortest non-empty run of
characters other than `\n` (`.` does not cross a line) followed by a space.
Returns the capture and the rest of the text after the consumed space. -/
def captureFile (cs : List Char) : Option (List Char × List Char) :=
  match cs with
  | [] => none
  | c :: rest =>
    if c = '\n' then none
    else
      let a := rest.takeWhile (fun x => x ≠ ' ' && x ≠ '\n')
      match rest.drop a.length with
      | ' ' :: r => some (c :: a, r)
      | _ => none

/-- `re.findall(r"diff --git a/(.+?) ", diff_text)`: scan left to right; at
each occurrence of the literal try the capture; on success resume after the
consumed match, on failure resume one character further.  `fuel` bounds the
scan; every call strictly shrinks the text, so `length + 1` fuel is exact. -/
def scanDiffFiles : Nat → List Char → List (List Char)
| 0, _ => []
| _ + 1, [] => []
| fuel + 1, c :: rest =>
  if diffGitLit.isPrefixOf (c :: rest) then
    match captureFile ((c :: rest).drop diffGitLit.length) with
    | some (cap, r) => cap :: scanDiffFiles fuel r
    | none => scanDiffFiles fuel rest
  else scanDiffFiles fuel rest

/-- The file names `generate_prompt_summary` extracts from the diff. -/
def findFiles (l : List Char) : List (List Char) := scanDiffFiles (l.length + 1) l

/-- `generate_prompt_summary(diff_text)` of prompt_organizer.py lines 21-25. -/
def generate_prompt_summary (diff_text : String) : String :=
  ⟨"📝 Change Summary：\n".data ++
    joinNL (((findFiles diff_text.data).take MAX_FILES_IN_SUMMARY).map
      (fun f => "- Change File：".data ++ f))⟩

/-- A line Python reads as added: starts with `+` but not with `+++`. -/
def isAddLine (l : List Char) : Bool :=
  ['+'].isPrefixOf l && !(['+', '+', '+'].isPrefixOf l)

/-- A line Python reads as removed: starts with `-` but not with `---`. -/
def isDelLine (l : List Char) : Bool :=
  ['-'].isPrefixOf l && !(['-', '-', '-'].isPrefixOf l)

/-- The bullet `compress_diff_to_bullets` emits for one added line:
`f"- Add：{line[1:].strip()}"`. -/
def addBullet (l : List Char) : List Char := "- Add：".data ++ pyStrip (l.drop 1)

/-- The bullet for one removed line: `f"- Delete：{line[1:].strip()}"`. -/
def delBullet (l : List Char) : List Char := "- Delete：".data ++ pyStrip (l.drop 1)

/-- The truncation bullet `"...<truncated>"` appended when the line cap is hit. -/
def truncatedBullet : List Char := "...<truncated>".data

/-- The loop of `compress_diff_to_bullets` (prompt_organizer.py lines 32-41):
append a bullet per added/removed line and, whenever the accumulated list has
reached `max_lines`, append the truncation bullet and break. -/
def bulletsLoop (max_lines : Nat) : List (List Char) → List (List Char) → List (List Char)
| [], acc => acc.reverse
| line :: rest, acc =>
  let acc' :=
    if isAddLine line then addBullet line :: acc
    else if isDelLine line then delBullet line :: acc
    else acc
  if max_lines ≤ acc'.length then (truncatedBullet :: acc').reverse
  else bulletsLoop max_lines rest acc'

/-- `compress_diff_to_bullets(diff_text, max_lines)` as the list of emitted
bullet lines, before the final `"\n".join`. -/
def compress_bullets_list (diff : List Char) (max_lines : Nat) : List (List Char) :=
  bulletsLoop max_lines (pySplitlines diff) []

/-- `compress_diff_to_bullets(diff_text, max_lines)` of prompt_organizer.py
lines 28-43. -/
def compress_diff_to_bullets (diff_text : String) (max_lines : Nat) : String :=
  ⟨joinNL (compress_bullets_list diff_text.data max_lines)⟩

/-- Characters in the CJK range the code tests: `0x4E00 ≤ ord(c) ≤ 0x9FFF`. -/
def isCJK (c : Char) : Bool := 0x4E00 ≤ c.toNat && c.toNat ≤ 0x9FFF

/-- The CJK character count of `_get_chars_per_token_ratio`. -/
def cjkCount (l : List Char) : Nat := (l.filter isCJK).length

/-- `cjk_ratio > 0.3` of `_get_chars_per_token_ratio`, as the exact rational
comparison `cjk_count / len > 3/10` (for empty text Python's guarded ratio is
0 and the comparison false, which `3 * 0 < 10 * 0` also yields). -/
def cjkHeavy (l : List Char) : Bool := 3 * l.length < 10 * cjkCount l

/-- `_get_chars_per_token_ratio(text, provider)` of prompt_organizer.py lines
46-75, returning twice the Python float (the ratios 2.0, 3.5, 2.5, 4.0 become
4, 7, 5, 8) so the result is a `Nat`. -/
def _get_chars_per_token_ratio (text : String) (provider : String) : Nat :=
  if provider = "gemini" then
    if cjkHeavy text.data then 4 else 7
  else if provider = "openai" ∨ provider = "openrouter" then
    if cjkHeavy text.data then 5 else 8
  else 7

/-- The tier-2 composite of `summary_and_tokens_checker` (line 110):
`f"{warning_msg}\n{prompt_summary}\n\n🔍 Change details (compressed version)：\n{compressed_diff}"`. -/
def tier2_prompt (diff_text : String) : String :=
  (check_diff_length diff_text MAX_DIFF_LENGTH).2 ++ "\n" ++
    generate_prompt_summary diff_text ++
    "\n\n🔍 Change details (compressed version)：\n" ++
    compress_diff_to_bullets diff_text MAX_COMPRESSED_LINES

/-- The tier-3 marker `f"\n\n...<truncated {chars_to_remove} chars>...\n\n"`. -/
def truncation_marker (chars_to_remove : Nat) : String :=
  "\n\n...<truncated " ++ Nat.repr chars_to_remove ++ " chars>...\n\n"

/-- Python `s[:k]` for `k ≥ 0`. -/
def pySliceTake (s : String) (k : Nat) : String := ⟨s.data.take k⟩

/-- Python `s[-k:]` for `k ≥ 0`: the last `k` characters — except that
`s[-0:]` is `s[0:]`, the whole string. -/
def pySliceLast (s : String) (k : Nat) : String :=
  if k = 0 then s else ⟨s.data.drop (s.data.length - k)⟩

/-- Modelled from the spec: the Token Estimator `count_tokens` lives in
`commity/utils/token_counter.py`, which prompt_organizer.py imports but which
is not among the staged sources.  Per spec §4.1/§4.4 it is a deterministic,
never-failing estimate with zero for empty text, at roughly 4 characters per
token; modelled as the ceiling of `length / 4` (independent of `model_name`
and `provider`, which only select the approximation scheme). -/
def count_tokens (text : String) (model_name provider : String) : Nat :=
  (text.length + 3) / 4

/-- `summary_and_tokens_checker(diff_text, max_output_tokens, model_name,
provider)` of prompt_organizer.py lines 78-136, parameterized by the token
estimator `count` the missing `token_counter` module provides (instantiate
with `count_tokens` for the spec-modelled estimator). -/
def summary_and_tokens_checker (count : String → String → String → Nat)
    (diff_text : String) (max_output_tokens : Nat)
    (model_name provider : String) : String :=
  let token_count := count diff_text model_name provider
  if token_count ≤ max_output_tokens then diff_text
  else
    let compressed_prompt := tier2_prompt diff_text
    let compressed_token_count := count compressed_prompt model_name provider
    if compressed_token_count ≤ max_output_tokens then compressed_prompt
    else
      let excess_tokens := compressed_token_count - max_output_tokens
      let chars_per_token := _get_chars_per_token_ratio compressed_prompt provider
      let chars_to_remove := excess_tokens * chars_per_token / 2
      if chars_to_remove + 100 < compressed_prompt.length then
        let keep_start := 7 * (compressed_prompt.length - chars_to_remove) / 10
        let keep_end := (compressed_prompt.length - chars_to_remove) / 10
        pySliceTake compressed_prompt keep_start ++
          truncation_marker chars_to_remove ++
          pySliceLast compressed_prompt keep_end
      else compressed_prompt

/-- The extensions the spec's File Importance Scorer treats as primary source. -/
def primary_source_exts : List String :=
  [".py", ".js", ".ts", ".go", ".rs", ".java", ".cpp", ".c"]

/-- The configuration/markup extensions of the File Importance Scorer. -/
def config_markup_exts : List String := [".yaml", ".json", ".toml"]

/-- The special file names that earn the 8-point bonus. -/
def special_files : List String := ["README.md", "README", "pyproject.toml", "package.json"]

/-- Whether `path` ends in one of the listed extensions. -/
def hasExtIn (path : String) (exts : List String) : Bool :=
  exts.any (fun e => e.data.isSuffixOf path.data)

/-- Whether `needle` occurs as a contiguous run inside the list (Python's
`in` on strings). -/
def hasInfix (needle : List Char) : List Char → Bool
| [] => needle.isEmpty
| c :: rest => needle.isPrefixOf (c :: rest) || hasInfix needle rest

/-- Whether `path` contains a `test` segment. -/
def containsTest (path : String) : Bool := hasInfix "test".data path.data

/-- Modelled from the spec: `calculate_file_importance` is imported by the
staged tests (src/tests/test_prompt_organizer.py) but not defined in the
staged src/commity/utils/prompt_organizer.py.  Branches and values follow
spec §4.2 (first match wins, additive special-file bonus, change volume
capped at 50); the 8-point bonus is keyed on the whole path, which the
staged tests pin: `calculate_file_importance("tests/README.md", 5, 0) == 7`
(no bonus) while `calculate_file_importance("README.md", 5, 0) == 15`. -/
def calculate_file_importance (path : String) (added removed : Nat) : Nat :=
  let base :=
    if hasExtIn path primary_source_exts then 10
    else if hasExtIn path config_markup_exts then 5
    else if ".md".data.isSuffixOf path.data then 2
    else if containsTest path then 2
    else 0
  let bonus := if special_files.contains path then 8 else 0
  base + bonus + min (added + removed) 50

/-- Python `os.path.basename`-style basename: everything after the last `/`. -/
def pyBasename (path : String) : String :=
  ⟨(path.data.reverse.takeWhile (fun c => c ≠ '/')).reverse⟩

/-- The File Importance Scorer exactly as claim C5 words it: identical to
`calculate_file_importance` except that the 8-point special-file bonus is
keyed on the basename of the path rather than on the whole path. -/
def claim_file_importance (path : String) (added removed : Nat) : Nat :=
  let base :=
    if hasExtIn path primary_source_exts then 10
    else if hasExtIn path config_markup_exts then 5
    else if ".md".data.isSuffixOf path.data then 2
    else if containsTest path then 2
    else 0
  let bonus := if special_files.contains (pyBasename path) then 8 else 0
  base + bonus + min (added + removed) 50

/-- The resolved configuration the CLI builds (cli.py `get_llm_config`):
the fields `summary_and_tokens_checker`'s call site can draw on. -/
structure LLMConfig where
  provider : String
  model : String
  max_tokens : Nat

/-- The diff-preparation step of cli.py line 51:
`diff = summary_and_tokens_checker(diff, config.max_tokens, config.model)` —
the call passes no provider argument, so the Python default `"openai"` is
used no matter what `config.provider` holds. -/
def cli_prepared_diff (count : String → String → String → Nat)
    (config : LLMConfig) (diff : String) : String :=
  summary_and_tokens_checker count diff config.max_tokens config.model "openai"

/-- `chars_to_remove` as tier 3 of `summary_and_tokens_checker` computes it
(line 122): `int(excess_tokens * chars_per_token)`. -/
def chars_to_remove_at (count : String → String → String → Nat)
    (d : String) (b : Nat) (m p : String) : Nat :=
  (count (tier2_prompt d) m p - b) * _get_chars_per_token_ratio (tier2_prompt d) p / 2

/-- `keep_start` as tier 3 computes it (line 126):
`int((len(compressed_prompt) - chars_to_remove) * 0.7)`. -/
def keep_start_at (count : String → String → String → Nat)
    (d : String) (b : Nat) (m p : String) : Nat :=
  7 * ((tier2_prompt d).length - chars_to_remove_at count d b m p) / 10

/-- `keep_end` as tier 3 computes it (line 127):
`int((len(compressed_prompt) - chars_to_remove) * 0.1)`. -/
def keep_end_at (count : String → String → String → Nat)
    (d : String) (b : Nat) (m p : String) : Nat :=
  ((tier2_prompt d).length - chars_to_remove_at count d b m p) / 10

/-- Tier 3 truncation fires: the raw diff is over budget, the tier-2
composite is still over budget, and the guard of line 124
(`len(compressed_prompt) > chars_to_remove + 100`) holds. -/
def tier3_fires (count : String → String → String → Nat)
    (d : String) (b : Nat) (m p : String) : Prop :=
  ¬ count d m p ≤ b ∧ ¬ count (tier2_prompt d) m p ≤ b ∧
    chars_to_remove_at count d b m p + 100 < (tier2_prompt d).length

/-- A line `compress_diff_to_bullets` emits a bullet for. -/
def isBulletLine (l : List Char) : Bool := isAddLine l || isDelLine l

/-- The bullet emitted for an eligible line. -/
def bulletOf (l : List Char) : List Char :=
  if isAddLine l then addBullet l else delBullet l

/-- Reference form of the bullet compressor: one bullet per eligible line
among the first `cap` eligible lines, and the truncation bullet exactly when
at least `cap` lines are eligible. -/
def bullets_ref (cap : Nat) (lines : List (List Char)) : List (List Char) :=
  ((lines.filter isBulletLine).take cap).map bulletOf ++
    (if cap ≤ (lines.filter isBulletLine).length then [truncatedBullet] else [])

/-- The provider families `_get_chars_per_token_ratio` distinguishes, read
off its branches: gemini; openai/openrouter; everything else. -/
def provider_family (p : String) : Nat :=
  if p = "gemini" then 0
  else if p = "openai" ∨ p = "openrouter" then 1
  else 2

/-! ## Helper lemmas -/

/-- A string of positive length is not the empty string. -/
theorem ne_empty_of_length_pos (s : String) (h : 0 < s.length) : s ≠ "" := by
intro he
rw [he] at h
exact Nat.lt_irrefl 0 h

/-- The tier-2 composite always contains the fixed section separators, so it
is at least 42 characters long (warning, summary and bullets aside). -/
theorem tier2_prompt_length_pos (d : String) : 0 < (tier2_prompt d).length := by
unfold tier2_prompt
simp only [String.length_append]
have h1 : ("\n" : String).length = 1 := rfl
omega

/-- The tier-3 marker is never empty. -/
theorem truncation_marker_length_pos (r : Nat) : 0 < (truncation_marker r).length := by
unfold truncation_marker
simp only [String.length_append]
have h1 : ("\n\n...<truncated " : String).length = 16 := rfl
omega

/-! ## C1 — inputs already within budget are returned unchanged -/

/-- Claim C1: for every diff text `d`, budget `b`, model `m` and provider
`p`, if the token estimate of `d` is at most `b` then
`summary_and_tokens_checker` returns `d` itself, unchanged.  Stated for
every token estimator `count` (the estimator module is not staged; the
property holds for any estimator). -/
theorem c1_returns_diff_when_under_budget
    (count : String → String → String → Nat) (d : String) (b : Nat)
    (m p : String) (h : count d m p ≤ b) :
    summary_and_tokens_checker count d b m p = d := by
unfold summary_and_tokens_checker
simp [h]

/-- Witness for C1 at the concrete input of the repository's own test
`test_returns_original_if_within_limit`. -/
theorem c1_witness :
    count_tokens "diff --git a/test.py b/test.py\n+line\n" "gpt-4" "openai" ≤ 10000 ∧
      summary_and_tokens_checker count_tokens "diff --git a/test.py b/test.py\n+line\n"
        10000 "gpt-4" "openai" = "diff --git a/test.py b/test.py\n+line\n" :=
⟨by decide,
 c1_returns_diff_when_under_budget count_tokens "diff --git a/test.py b/test.py\n+line\n"
   10000 "gpt-4" "openai" (by decide)⟩

/-! ## C2 — totality and non-emptiness -/

/-- Claim C2: `summary_and_tokens_checker` is total (in this embedding every
function is, and the source has no raising operation outside the estimator,
which the spec requires never to raise), and for every non-empty diff and
every budget `b ≥ 1` the result is non-empty — whichever branch returns:
the original diff, the tier-2 composite (which contains fixed headers), or
the tier-3 truncation (which contains the marker). -/
theorem c2_result_nonempty
    (count : String → String → String → Nat) (d : String) (b : Nat)
    (m p : String) (hd : d ≠ "") (hb : 1 ≤ b) :
    summary_and_tokens_checker count d b m p ≠ "" := by
unfold summary_and_tokens_checker
by_cases h1 : count d m p ≤ b
· simpa [h1]
· simp only [if_neg h1]
  by_cases h2 : count (tier2_prompt d) m p ≤ b
  · simpa [h2] using ne_empty_of_length_pos _ (tier2_prompt_length_pos d)
  · simp only [if_neg h2]
    split
    · apply ne_empty_of_length_pos
      simp only [String.length_append]
      have := truncation_marker_length_pos
        ((count (tier2_prompt d) m p - b) * _get_chars_per_token_ratio (tier2_prompt d) p / 2)
      omega
    · exact ne_empty_of_length_pos _ (tier2_prompt_length_pos d)

/-- Witness for C2 at a small non-empty diff and budget 1. -/
theorem c2_witness :
    ("+x" : String) ≠ "" ∧ 1 ≤ 1 ∧
      summary_and_tokens_checker count_tokens "+x" 1 "gpt-4" "ollama" ≠ "" :=
⟨by decide, by decide, c2_result_nonempty count_tokens "+x" 1 "gpt-4" "ollama" (by decide) (by decide)⟩

/-! ## C3 — "compression never expands" fails on short inputs -/

/-- Counterexample to claim C3: the 8-character diff `"++++++++"` with
budget 1 is over budget (spec-modelled estimate 2 > 1), yet the pipeline
returns the 60-character tier-2 composite — the fixed headers expand the
text, so `len(result) ≤ len(d)` is false. -/
theorem c3_expansion_counterexample :
    ¬ count_tokens "++++++++" "gpt-4" "openai" ≤ 1 ∧
      ("++++++++" : String).length <
        (summary_and_tokens_checker count_tokens "++++++++" 1 "gpt-4" "openai").length := by
constructor
· decide
· decide

/-- Amended C3: when the diff is over budget, the tier-2 composite fits the
budget, and the composite is itself no longer than the diff, the result is
no longer than the diff.  (In general the claim fails: the composite adds
fixed headers and tier 3 adds a marker, so short over-budget inputs can come
back longer, as the counterexample shows.) -/
theorem c3_amended_shrinkage
    (count : String → String → String → Nat) (d : String) (b : Nat)
    (m p : String) (h1 : ¬ count d m p ≤ b)
    (h2 : count (tier2_prompt d) m p ≤ b)
    (h3 : (tier2_prompt d).length ≤ d.length) :
    (summary_and_tokens_checker count d b m p).length ≤ d.length := by
unfold summary_and_tokens_checker
simpa [h1, h2] using h3

/-- Witness for the amended C3: 100 `x` characters with budget 20 — over
budget (estimate 25), composite of length 60 fits (estimate 15 ≤ 20). -/
theorem c3_witness :
    ¬ count_tokens (String.mk (List.replicate 100 'x')) "gpt-4" "openai" ≤ 20 ∧
      count_tokens (tier2_prompt (String.mk (List.replicate 100 'x'))) "gpt-4" "openai" ≤ 20 ∧
      (tier2_prompt (String.mk (List.replicate 100 'x'))).length ≤
        (String.mk (List.replicate 100 'x')).length ∧
      (summary_and_tokens_checker count_tokens (String.mk (List.replicate 100 'x'))
          20 "gpt-4" "openai").length ≤ (String.mk (List.replicate 100 'x')).length :=
⟨by decide, by decide, by decide,
 c3_amended_shrinkage count_tokens (String.mk (List.replicate 100 'x')) 20 "gpt-4" "openai"
   (by decide) (by decide) (by decide)⟩

/-! ## C4 — the staged tier 2 does no importance scoring -/

/-- Claim C4 describes `compress_with_structure`: per-file blocks scored by
the File Importance Scorer and emitted in descending-score order under an
incrementally re-measured budget.  The staged
src/commity/utils/prompt_organizer.py has no such tier: when the raw diff
exceeds the budget it emits warning + regex file list (in order of
appearance) + bullet compression, measured once.  At this concrete
over-budget two-file diff the output is exactly that composite, the file
list stands in document order (`a.txt` before `b.py`), and the
(spec-modelled) scorer ranks `b.py` strictly above `a.txt` — so no
score-ordered emission happened. -/
theorem c4_tier2_no_importance_ordering :
    summary_and_tokens_checker count_tokens
        "diff --git a/a.txt b/a.txt\n+x\ndiff --git a/b.py b/b.py\n+y\n+z\n"
        10 "gpt-4" "openai" =
      "\n📝 Change Summary：\n- Change File：a.txt\n- Change File：b.py\n\n🔍 Change details (compressed version)：\n- Add：x\n- Add：y\n- Add：z" ∧
      (findFiles "diff --git a/a.txt b/a.txt\n+x\ndiff --git a/b.py b/b.py\n+y\n+z\n".data).map
          List.asString = ["a.txt", "b.py"] ∧
      calculate_file_importance "a.txt" 1 0 < calculate_file_importance "b.py" 2 0 := by
refine ⟨by decide, by decide, by decide⟩

/-! ## C9 — the CLI never forwards the configured provider -/

/-- Claim C9: cli.py line 51 calls
`summary_and_tokens_checker(diff, config.max_tokens, config.model)` with no
provider argument, so the pipeline always runs with the Python default
provider `"openai"`: two configurations that differ only in their provider
field yield the identical prepared diff, for every estimator and diff. -/
theorem c9_provider_ignored_by_cli
    (count : String → String → String → Nat) (config : LLMConfig)
    (p : String) (diff : String) :
    cli_prepared_diff count { config with provider := p } diff =
      cli_prepared_diff count config diff := rfl

/-! ## C5 — File Importance Scorer laws -/

/-- Counterexample to claim C5: the claim keys the 8-point bonus on the
basename, so for `tests/README.md` (basename `README.md`, a special file)
it predicts 2 (.md) + 8 (bonus) + 5 (changes) = 15; the scorer the staged
tests pin gives 7 (no bonus: the whole path is not a special file name). -/
theorem c5_basename_bonus_refuted :
    calculate_file_importance "tests/README.md" 5 0 = 7 ∧
      claim_file_importance "tests/README.md" 5 0 = 15 := by
constructor
· decide
· decide

/-- Amended C5: the score is a first-match base (primary source 10,
configuration/markup 5, `.md` 2, test path 2, else 0) — each branch
exclusive of the later ones — plus 8 exactly when the whole path (not the
basename) is a known special file name, plus `min(added+removed, 50)`;
the change-volume term is always fully contained in the score (so the
result is non-negative), and the function is deterministic by construction. -/
theorem c5_amended_importance_laws (path : String) (added removed : Nat) :
    (hasExtIn path primary_source_exts = true →
      calculate_file_importance path added removed =
        10 + (if special_files.contains path then 8 else 0) + min (added + removed) 50) ∧
    (hasExtIn path primary_source_exts = false →
      hasExtIn path config_markup_exts = true →
      calculate_file_importance path added removed =
        5 + (if special_files.contains path then 8 else 0) + min (added + removed) 50) ∧
    (hasExtIn path primary_source_exts = false →
      hasExtIn path config_markup_exts = false →
      ".md".data.isSuffixOf path.data = true →
      calculate_file_importance path added removed =
        2 + (if special_files.contains path then 8 else 0) + min (added + removed) 50) ∧
    (hasExtIn path primary_source_exts = false →
      hasExtIn path config_markup_exts = false →
      ".md".data.isSuffixOf path.data = false →
      containsTest path = true →
      calculate_file_importance path added removed =
        2 + (if special_files.contains path then 8 else 0) + min (added + removed) 50) ∧
    (hasExtIn path primary_source_exts = false →
      hasExtIn path config_markup_exts = false →
      ".md".data.isSuffixOf path.data = false →
      containsTest path = false →
      calculate_file_importance path added removed =
        (if special_files.contains path then 8 else 0) + min (added + removed) 50) ∧
    min (added + removed) 50 ≤ calculate_file_importance path added removed := by
unfold calculate_file_importance
refine ⟨?_, ?_, ?_, ?_, ?_, ?_⟩ <;> intros <;> simp_all

/-! ## C8 — characters-per-token ratio selection -/

/-- Claim C8: the ratio (represented in half-characters per token) is a pure
function of the provider family and the CJK-heaviness flag; within each
recognized family the CJK ratio is strictly lower than the Latin ratio
(gemini: 4 < 7, i.e. 2.0 < 3.5; openai/openrouter: 5 < 8, i.e. 2.5 < 4.0);
every unrecognized provider gets the single default 7 (3.5), and no text —
empty included — is outside the function's domain. -/
theorem c8_ratio_selection (t1 t2 p1 p2 : String)
    (hfam : provider_family p1 = provider_family p2)
    (hcjk : cjkHeavy t1.data = cjkHeavy t2.data) :
    _get_chars_per_token_ratio t1 p1 = _get_chars_per_token_ratio t2 p2 ∧
    (∀ tc tl : String, cjkHeavy tc.data = true → cjkHeavy tl.data = false →
      _get_chars_per_token_ratio tc "gemini" < _get_chars_per_token_ratio tl "gemini" ∧
      _get_chars_per_token_ratio tc "openai" < _get_chars_per_token_ratio tl "openai" ∧
      _get_chars_per_token_ratio tc "openrouter" < _get_chars_per_token_ratio tl "openrouter") ∧
    (∀ t q : String, q ≠ "gemini" → q ≠ "openai" → q ≠ "openrouter" →
      _get_chars_per_token_ratio t q = 7) := by
refine ⟨?_, ?_, ?_⟩
· unfold _get_chars_per_token_ratio provider_family at *
  split_ifs at hfam ⊢ <;> simp_all
· intro tc tl hc hl
  unfold _get_chars_per_token_ratio
  simp [hc, hl]
· intro t q h1 h2 h3
  unfold _get_chars_per_token_ratio
  rw [if_neg h1, if_neg (by simp [h2, h3])]

/-- Witness for C8: two CJK-heavy texts under the two providers of the
openai family give the same ratio, and the embedded universals apply. -/
theorem c8_witness :
    provider_family "openai" = provider_family "openrouter" ∧
      cjkHeavy "中文中文".data = cjkHeavy "漢字".data ∧
      _get_chars_per_token_ratio "中文中文" "openai" =
        _get_chars_per_token_ratio "漢字" "openrouter" :=
⟨by decide, by decide,
 (c8_ratio_selection "中文中文" "漢字" "openai" "openrouter" (by decide) (by decide)).1⟩

/-! ## C10 — the keep_end = 0 scenario is unreachable -/

/-- Counterexample to claim C10: the claim describes what happens "whenever
tier 3 fires and the computed tail length is zero" — but that situation
never arises, for any estimator whatsoever: the guard
`len(compressed_prompt) > chars_to_remove + 100` forces a retained length of
at least 101, hence a tail length of at least 10.  The `[-0:]`
whole-string quirk of Python slicing is real (`pySliceLast s 0 = s`) but
unreachable in `summary_and_tokens_checker`. -/
theorem c10_keep_end_zero_unreachable :
    ¬ ∃ (count : String → String → String → Nat) (d : String) (b : Nat) (m p : String),
        tier3_fires count d b m p ∧ keep_end_at count d b m p = 0 := by
rintro ⟨c, d, b, m, p, ⟨h1, h2, h3⟩, hk⟩
unfold keep_end_at at hk
omega

/-- Amended C10: whenever tier-3 truncation fires, the computed tail length
is at least 10, so the tail slice takes a genuine proper tail (the
`keep_end = 0` branch of `pySliceLast`, which would copy the whole string,
is never taken). -/
theorem c10_amended_tail_at_least_ten
    (count : String → String → String → Nat) (d : String) (b : Nat)
    (m p : String) (h : tier3_fires count d b m p) :
    10 ≤ keep_end_at count d b m p ∧
      pySliceLast (tier2_prompt d) (keep_end_at count d b m p) =
        ⟨(tier2_prompt d).data.drop
          ((tier2_prompt d).data.length - keep_end_at count d b m p)⟩ := by
obtain ⟨h1, h2, h3⟩ := h
have hk : 10 ≤ keep_end_at count d b m p := by
  unfold keep_end_at
  omega
refine ⟨hk, ?_⟩
unfold pySliceLast
rw [if_neg (by omega)]

/-- Witness for the amended C10 at a concrete tier-3-firing input: a
40-line all-additions diff with budget 28 under the spec-modelled
estimator. -/
theorem c10_witness :
    tier3_fires count_tokens (String.mk (List.flatten (List.replicate 40 ['+', 'a', '\n'])))
        28 "gpt-4" "openai" ∧
      10 ≤ keep_end_at count_tokens
        (String.mk (List.flatten (List.replicate 40 ['+', 'a', '\n']))) 28 "gpt-4" "openai" :=
⟨⟨by decide, by decide, by decide⟩,
 (c10_amended_tail_at_least_ten count_tokens
    (String.mk (List.flatten (List.replicate 40 ['+', 'a', '\n']))) 28 "gpt-4" "openai"
    ⟨by decide, by decide, by decide⟩).1⟩

/-! ## C7 — tier-3 truncation shape and its marker -/

/-- A concrete diff of 40 added lines, over budget 28 under the
spec-modelled estimator, whose tier-2 composite (379 characters, estimate
95) passes the tier-3 guard: `chars_to_remove` is 268 and the retained
length 111. -/
def sample_overflow_diff : String :=
  String.mk (List.flatten (List.replicate 40 ['+', 'a', '\n']))

/-- Counterexample to claim C7: at `sample_overflow_diff` with budget 28,
tier 3 fires and the marker states `chars_to_remove = 268` characters
elided, but the characters actually elided between lead and tail are
`379 - 77 - 11 = 291`: the stated count does not equal the elided count
(the lead and tail keep only ≈80% of the intended retained length). -/
theorem c7_marker_count_refuted :
    tier3_fires count_tokens sample_overflow_diff 28 "gpt-4" "openai" ∧
      ¬ chars_to_remove_at count_tokens sample_overflow_diff 28 "gpt-4" "openai" =
          (tier2_prompt sample_overflow_diff).length -
            keep_start_at count_tokens sample_overflow_diff 28 "gpt-4" "openai" -
            keep_end_at count_tokens sample_overflow_diff 28 "gpt-4" "openai" := by
constructor
· exact ⟨by decide, by decide, by decide⟩
· decide

/-- Amended C7: when the compressed text still exceeds the budget, tier 3
removes a contiguous middle span — the result is the first
`int(0.7 * (len - chars_to_remove))` characters, the marker stating
`chars_to_remove`, and the last `int(0.1 * (len - chars_to_remove))`
characters — but the marker understates: the characters actually elided
strictly exceed the stated `chars_to_remove`.  When the text is not longer
than `chars_to_remove + 100`, the compressed text is returned as-is and is
never empty. -/
theorem c7_amended_truncation
    (count : String → String → String → Nat) (d : String) (b : Nat)
    (m p : String) (h1 : ¬ count d m p ≤ b)
    (h2 : ¬ count (tier2_prompt d) m p ≤ b) :
    (chars_to_remove_at count d b m p + 100 < (tier2_prompt d).length →
      summary_and_tokens_checker count d b m p =
        pySliceTake (tier2_prompt d) (keep_start_at count d b m p) ++
          truncation_marker (chars_to_remove_at count d b m p) ++
          pySliceLast (tier2_prompt d) (keep_end_at count d b m p) ∧
      chars_to_remove_at count d b m p <
        (tier2_prompt d).length - keep_start_at count d b m p -
          keep_end_at count d b m p) ∧
    (¬ chars_to_remove_at count d b m p + 100 < (tier2_prompt d).length →
      summary_and_tokens_checker count d b m p = tier2_prompt d ∧
      summary_and_tokens_checker count d b m p ≠ "") := by
constructor
· intro hg
  constructor
  · unfold summary_and_tokens_checker
    unfold chars_to_remove_at at hg
    simp only [if_neg h1, if_neg h2, if_pos hg]
    rfl
  · unfold keep_start_at keep_end_at
    unfold chars_to_remove_at at hg ⊢
    omega
· intro hg
  have he : summary_and_tokens_checker count d b m p = tier2_prompt d := by
    unfold summary_and_tokens_checker
    unfold chars_to_remove_at at hg
    simp only [if_neg h1, if_neg h2, if_neg hg]
  refine ⟨he, ?_⟩
  rw [he]
  exact ne_empty_of_length_pos _ (tier2_prompt_length_pos d)

/-- Witness for the amended C7 at `sample_overflow_diff` with budget 28:
both over-budget hypotheses hold and the truncation branch applies. -/
theorem c7_witness :
    (¬ count_tokens sample_overflow_diff "gpt-4" "openai" ≤ 28) ∧
      (summary_and_tokens_checker count_tokens sample_overflow_diff 28 "gpt-4" "openai" =
        pySliceTake (tier2_prompt sample_overflow_diff)
            (keep_start_at count_tokens sample_overflow_diff 28 "gpt-4" "openai") ++
          truncation_marker (chars_to_remove_at count_tokens sample_overflow_diff 28 "gpt-4" "openai") ++
          pySliceLast (tier2_prompt sample_overflow_diff)
            (keep_end_at count_tokens sample_overflow_diff 28 "gpt-4" "openai") ∧
      chars_to_remove_at count_tokens sample_overflow_diff 28 "gpt-4" "openai" <
        (tier2_prompt sample_overflow_diff).length -
          keep_start_at count_tokens sample_overflow_diff 28 "gpt-4" "openai" -
          keep_end_at count_tokens sample_overflow_diff 28 "gpt-4" "openai") :=
⟨by decide,
 (c7_amended_truncation count_tokens sample_overflow_diff 28 "gpt-4" "openai"
    (by decide) (by decide)).1 (by decide)⟩

/-! ## C6 — the bullet compressor -/

/-- On a bullet-eligible line the loop's conditional append produces
exactly `bulletOf`. -/
theorem append_eq_bulletOf (line : List Char) (acc : List (List Char))
    (hb : isBulletLine line = true) :
    (if isAddLine line then addBullet line :: acc
     else if isDelLine line then delBullet line :: acc
     else acc) = bulletOf line :: acc := by
unfold isBulletLine at hb
unfold bulletOf
cases ha : isAddLine line <;> cases hd : isDelLine line <;> simp_all

/-- On a non-eligible line the loop's conditional append is the identity. -/
theorem append_eq_skip (line : List Char) (acc : List (List Char))
    (hb : isBulletLine line = false) :
    (if isAddLine line then addBullet line :: acc
     else if isDelLine line then delBullet line :: acc
     else acc) = acc := by
unfold isBulletLine at hb
cases ha : isAddLine line <;> cases hd : isDelLine line <;> simp_all

/-- A bullet is never the truncation bullet: bullets start with `-`, the
truncation bullet with `.`. -/
theorem bulletOf_ne_truncated (l : List Char) : bulletOf l ≠ truncatedBullet := by
have ha : "- Add：".data = '-' :: " Add：".data := rfl
have hd : "- Delete：".data = '-' :: " Delete：".data := rfl
have ht : truncatedBullet = '.' :: "..<truncated>".data := rfl
unfold bulletOf addBullet delBullet
split <;> simp [ha, hd, ht]

/-- The loop of `compress_diff_to_bullets`, run from any accumulator still
under the cap, emits the accumulator followed by one bullet per eligible
line up to the remaining capacity, with the truncation bullet exactly when
the eligible lines fill it. -/
theorem bulletsLoop_eq (cap : Nat) (lines : List (List Char)) :
    ∀ acc : List (List Char), acc.length < cap →
      bulletsLoop cap lines acc =
        acc.reverse ++ ((lines.filter isBulletLine).take (cap - acc.length)).map bulletOf ++
          (if cap - acc.length ≤ (lines.filter isBulletLine).length
            then [truncatedBullet] else []) := by
induction lines with
| nil =>
  intro acc h
  unfold bulletsLoop
  rw [List.filter_nil, List.take_nil, List.map_nil, if_neg (by simp; omega)]
  simp
| cons line rest ih =>
  intro acc h
  unfold bulletsLoop
  by_cases hb : isBulletLine line = true
  · rw [append_eq_bulletOf line acc hb, List.filter_cons_of_pos hb]
    by_cases h2 : cap ≤ (bulletOf line :: acc).length
    · rw [if_pos h2]
      have hcap : cap - acc.length = 1 := by simp at h2; omega
      rw [hcap, List.take_succ_cons, List.take_zero, List.map_cons, List.map_nil,
        if_pos (by simp)]
      simp
    · rw [if_neg h2]
      have h3 : (bulletOf line :: acc).length < cap := by
        simp at h2 ⊢
        omega
      rw [ih (bulletOf line :: acc) h3]
      obtain ⟨k, hk⟩ : ∃ k, cap - acc.length = k + 1 := ⟨cap - acc.length - 1, by omega⟩
      have hsub : cap - (bulletOf line :: acc).length = k := by
        simp
        omega
      rw [hk, hsub, List.take_succ_cons, List.map_cons]
      have hiff : (k ≤ (rest.filter isBulletLine).length) ↔
          (k + 1 ≤ (line :: rest.filter isBulletLine).length) := by
        simp
      rw [if_congr hiff rfl rfl]
      simp
  · have hb' : isBulletLine line = false := Bool.eq_false_iff.mpr hb
    rw [append_eq_skip line acc hb', if_neg (by omega), ih acc h,
      List.filter_cons_of_neg (by simp [hb'])]

/-- Counterexample to claim C6: the bullets are not formatted
`"+ <content>"` / `"- <content>"`; the staged code emits
`"- Add：<content>"` / `"- Delete：<content>"`. -/
theorem c6_bullet_format_refuted :
    compress_diff_to_bullets "+foo\n-bar" MAX_COMPRESSED_LINES = "- Add：foo\n- Delete：bar" ∧
      compress_diff_to_bullets "+foo\n-bar" MAX_COMPRESSED_LINES ≠ "+ foo\n- bar" := by
constructor
· decide
· decide

/-- Amended C6: for every diff and every cap `≥ 1` (the default is 1000),
the compressor emits, in order, one bullet per eligible line (added lines as
`"- Add：<content>"`, removed lines as `"- Delete：<content>"`, with
file-header markers `+++`/`---` and all other lines skipped) up to the cap,
and appends the `"...<truncated>"` bullet exactly when at least `cap` lines
are eligible; hence it never emits more than `cap + 1` lines, and the
truncation bullet appears exactly when the cap is hit. -/
theorem c6_amended_bullets (d : List Char) (cap : Nat) (hcap : 1 ≤ cap) :
    compress_bullets_list d cap = bullets_ref cap (pySplitlines d) ∧
      (compress_bullets_list d cap).length ≤ cap + 1 ∧
      (truncatedBullet ∈ compress_bullets_list d cap ↔
        cap ≤ ((pySplitlines d).filter isBulletLine).length) := by
have h0 := bulletsLoop_eq cap (pySplitlines d) [] (by simpa using hcap)
have h1 : compress_bullets_list d cap = bullets_ref cap (pySplitlines d) := by
  unfold compress_bullets_list bullets_ref
  simpa using h0
refine ⟨h1, ?_, ?_⟩
· rw [h1]
  unfold bullets_ref
  simp only [List.length_append, List.length_map, List.length_take]
  split <;> simp
· rw [h1]
  unfold bullets_ref
  constructor
  · intro hm
    rcases List.mem_append.mp hm with hm | hm
    · rcases List.mem_map.mp hm with ⟨x, _, hx⟩
      exact absurd hx (bulletOf_ne_truncated x)
    · by_contra hc
      rw [if_neg hc] at hm
      simp at hm
  · intro hc
    exact List.mem_append.mpr (Or.inr (by rw [if_pos hc]; simp))

/-- Witness for the amended C6 at a two-line diff and the default cap. -/
theorem c6_witness :
    (1 : Nat) ≤ 1000 ∧
      (compress_bullets_list "+foo\n-bar".data 1000 =
          bullets_ref 1000 (pySplitlines "+foo\n-bar".data) ∧
        (compress_bullets_list "+foo\n-bar".data 1000).length ≤ 1000 + 1 ∧
        (truncatedBullet ∈ compress_bullets_list "+foo\n-bar".data 1000 ↔
          1000 ≤ ((pySplitlines "+foo\n-bar".data).filter isBulletLine).length)) :=
⟨by decide, c6_amended_bullets "+foo\n-bar".data 1000 (by decide)⟩

end Commity
